import Mathlib

/-!
A verification development for the invoice-processing pipeline
(`orchestrator.py`, `agents/validation_agent.py`, `agents/tool_decision_agent.py`,
`agents/extraction_agent.py`, `tools/database_tool.py`).

The Python code is shallowly embedded: Python dictionaries holding invoice
fields become association lists over a small universe `PyVal` of Python
values; the external capability calls (OCR ingestion, the LLM model call,
`float(...)` on strings via Python's parser, `dateutil.parser.parse`) are
threaded as explicit parameters/oracles; the JSON database file becomes an
explicit `DBFile` state threaded through the persistence tool.
-/

namespace Invoice

/-- A Python value as it can occur in a field mapping.  `num` covers Python
`int`/`float` (modelled as rationals; IEEE `nan`/`inf` corner cases are out of
scope of this embedding), `obj` stands for any other Python object (list,
dict, set, custom class): such a value is not coercible by `float(...)` and
is not JSON-serializable. -/
inductive PyVal where
  | null
  | bool (b : Bool)
  | num (q : ℚ)
  | str (s : String)
  | obj
deriving DecidableEq, Repr

/-- A Python `dict` with string keys, as an association list (first match wins;
Python dicts have unique keys, so duplicates never arise from the code). -/
abbrev PyDict := List (String × PyVal)

/-- `d[k]` lookup: `some v` when the key is present. -/
def dget : PyDict → String → Option PyVal
  | [], _ => none
  | (k, v) :: rest, key => if k = key then some v else dget rest key

/-- Python's `k in d and d[k] is not None` used throughout the validation
agent: the value when the key is present with a non-`None` value. -/
def getNonNull (m : PyDict) (k : String) : Option PyVal :=
  match dget m k with
  | some PyVal.null => none
  | some v => some v
  | none => none

/-- Python `float(v)` inside a `try: ... except (ValueError, TypeError)`
block: numbers coerce to themselves, booleans to 1/0, strings through the
Python float parser (threaded as the oracle `pN`), everything else raises
(i.e. returns `none` here). -/
def tryFloat (pN : String → Option ℚ) : PyVal → Option ℚ
  | PyVal.num q => some q
  | PyVal.bool b => some (if b then 1 else 0)
  | PyVal.str s => pN s
  | PyVal.null => none
  | PyVal.obj => none

/-- `ValidationAgent._is_valid_date`: `dateutil.parser.parse` (the oracle
`pD`) on strings; any non-string argument raises `TypeError`, which the
method catches and turns into `False`. -/
def is_valid_date (pD : String → Bool) : PyVal → Bool
  | PyVal.str s => pD s
  | _ => false

/-- The validation agent's result dictionary `{status, errors}`. -/
structure Verdict where
  status : String
  errors : List String
deriving DecidableEq, Repr

/-- `ValidationAgent.validate`, mirroring the Python line by line: the loop
over the two required fields, the `total_amount` coercion/positivity check
(run only when the field is present and non-`None`), and the optional
`due_date` check; `status` is `"valid"` exactly when no error was appended. -/
def validate (pN : String → Option ℚ) (pD : String → Bool)
    (extracted_data : PyDict) : Verdict :=
  let errors :=
    (if getNonNull extracted_data "biller_name" = none
      then ["Missing required field: biller_name"] else [])
    ++ (if getNonNull extracted_data "total_amount" = none
      then ["Missing required field: total_amount"] else [])
    ++ (match getNonNull extracted_data "total_amount" with
      | some v =>
        match tryFloat pN v with
        | some amount =>
          if amount ≤ 0 then ["total_amount must be a positive number"] else []
        | none => ["total_amount must be a valid number"]
      | none => [])
    ++ (match getNonNull extracted_data "due_date" with
      | some v =>
        if is_valid_date pD v then [] else ["due_date must be a valid date format"]
      | none => [])
  if errors = [] then ⟨"valid", []⟩ else ⟨"incomplete", errors⟩

/-- The tool-decision agent's result dictionary. -/
structure Decision where
  should_write : Bool
  reason : String
  data_to_write : Option PyDict
deriving DecidableEq, Repr

/-- `ToolDecisionAgent.decide`: route on the verdict's status only. -/
def decide (validation_result : Verdict) (extracted_data : PyDict) : Decision :=
  if validation_result.status = "valid" then
    ⟨true, "Invoice validation passed", some extracted_data⟩
  else
    ⟨false, "Validation failed: " ++ String.intercalate ", " validation_result.errors,
      none⟩

/-- A record as written by `DatabaseTool.write_invoice_to_db`: the invoice
data plus the assigned `id` and `created_at` timestamp (the constant
`"status": "stored"` field is implicit). -/
structure InvoiceRecord where
  data : PyDict
  id : ℕ
  created_at : String
deriving DecidableEq, Repr

/-- Whether `json.dump` can serialize a value. -/
def PyVal.serializable : PyVal → Bool
  | PyVal.obj => false
  | _ => true

/-- Whether `json.dump` can serialize a dictionary of invoice fields. -/
def dictSerializable (d : PyDict) : Bool :=
  d.all (fun kv => kv.2.serializable)

/-- Whether `json.dump` can serialize a stored record. -/
def recordSerializable (r : InvoiceRecord) : Bool :=
  dictSerializable r.data

/-- The state of the JSON database file: absent, present-but-not-valid-JSON
(which includes the truncated/partial content left behind when `json.dump`
fails after `open(path, "w")` has already truncated the file), or a valid
JSON array of records. -/
inductive DBFile where
  | missing
  | corrupt
  | stored (recs : List InvoiceRecord)
deriving DecidableEq, Repr

/-- `DatabaseTool._load_invoices`: `FileNotFoundError` and `JSONDecodeError`
are both caught and turned into the empty list. -/
def load_invoices : DBFile → List InvoiceRecord
  | DBFile.missing => []
  | DBFile.corrupt => []
  | DBFile.stored recs => recs

/-- The result dictionary of `write_invoice_to_db`. -/
structure WriteResult where
  success : Bool
  message : String
  invoice_id : Option ℕ
deriving DecidableEq, Repr

/-- `DatabaseTool.write_invoice_to_db`: load the existing records, build the
new record with `id = len(invoices) + 1`, append, and rewrite the whole file.
`_save_invoices` opens the file with mode `"w"` — truncating it — and then
streams `json.dump` into it, so when serialization fails the file is left
truncated/partial (`DBFile.corrupt`) while the caller still gets the caught
`success=False` result. -/
def write_invoice_to_db (invoice_data : PyDict) (now : String)
    (file : DBFile) : WriteResult × DBFile :=
  let invoices := load_invoices file
  let record : InvoiceRecord := ⟨invoice_data, invoices.length + 1, now⟩
  let newInvoices := invoices ++ [record]
  if newInvoices.all recordSerializable then
    (⟨true, "Invoice successfully written to database", some record.id⟩,
      DBFile.stored newInvoices)
  else
    (⟨false, "Error writing to database: serialization failure", none⟩,
      DBFile.corrupt)

/-- A sequence of `write_invoice_to_db` calls against the same store
instance, each payload paired with its `datetime.now()` timestamp. -/
def runWrites : List (PyDict × String) → DBFile → List WriteResult × DBFile
  | [], file => ([], file)
  | (d, now) :: rest, file =>
    let step := write_invoice_to_db d now file
    let tail := runWrites rest step.2
    (step.1 :: tail.1, tail.2)

/-- The `document_ingestion` entry of the pipeline's `steps` dict (the
fields the claims are about: `status` and the optional `error` message). -/
structure IngestStep where
  status : String
  error : Option String
deriving DecidableEq, Repr

/-- The `extraction` entry of the `steps` dict. -/
structure ExtractStep where
  status : String
  output : PyDict
deriving DecidableEq, Repr

/-- The `validation` entry of the `steps` dict. -/
structure ValidateStep where
  status : String
  output : Verdict
deriving DecidableEq, Repr

/-- The `tool_decision` entry of the `steps` dict. -/
structure DecideStep where
  status : String
  output : Decision
deriving DecidableEq, Repr

/-- The `database_write` entry of the `steps` dict: `output` is the tool's
result when the write ran, `reason` is set when the step was skipped. -/
structure DbStep where
  status : String
  output : Option WriteResult
  reason : Option String
deriving DecidableEq, Repr

/-- The dictionary returned by `process_invoice`: each step key of `steps`
is `some _` exactly when the Python code inserted it, and `overall_status`
is `some _` exactly when the Python code set that key. -/
structure PipelineRun where
  document_ingestion : Option IngestStep
  extraction : Option ExtractStep
  validation : Option ValidateStep
  tool_decision : Option DecideStep
  database_write : Option DbStep
  overall_status : Option String
deriving DecidableEq, Repr

/-- Python `str.strip()` followed by the truthiness test: whitespace
characters as stripped by `strip()` (ASCII subset). -/
def pyWhitespace (c : Char) : Bool :=
  c = ' ' || c = '\t' || c = '\n' || c = '\r'

/-- Python `raw_text.strip()` (ASCII whitespace subset). -/
def pyStrip (s : String) : String :=
  String.mk (((s.toList.dropWhile pyWhitespace).reverse.dropWhile pyWhitespace).reverse)

/-- `InvoiceProcessingOrchestrator.process_invoice`, as a function of the
ingestion output's `raw_text`, the extraction agent's output dictionary
(both external capability calls), the two validation oracles, the
`datetime.now()` timestamp, and the database file state.  On empty/
whitespace-only text it returns early with only the ingestion step recorded
and — matching the Python `return` before `overall_status` is assigned — no
`overall_status` key.  Otherwise it runs validation, decision, and
(conditionally) the database write in the same call.  The database tool is
handed `decision_result["data_to_write"]`; were that `None`, the `{**None}`
splat inside the tool's own `try` block would raise and be caught there,
producing a failed write with the file untouched. -/
def process_invoice (pN : String → Option ℚ) (pD : String → Bool)
    (raw_text : String) (extracted : PyDict) (now : String)
    (file : DBFile) : PipelineRun × DBFile :=
  if pyStrip raw_text = "" then
    (⟨some ⟨"error", some "No text extracted from document"⟩,
      none, none, none, none, none⟩, file)
  else
    let validation_result := validate pN pD extracted
    let decision_result := decide validation_result extracted
    if decision_result.should_write then
      let db :=
        match decision_result.data_to_write with
        | some d => write_invoice_to_db d now file
        | none =>
          (⟨false, "Error writing to database: mapping splat of None", none⟩, file)
      (⟨some ⟨"success", none⟩,
        some ⟨"success", extracted⟩,
        some ⟨if validation_result.status = "valid" then "success" else "failed",
          validation_result⟩,
        some ⟨"success", decision_result⟩,
        some ⟨if db.1.success then "success" else "error", some db.1, none⟩,
        some (if validation_result.status = "valid" then "success" else "incomplete")⟩,
        db.2)
    else
      (⟨some ⟨"success", none⟩,
        some ⟨"success", extracted⟩,
        some ⟨if validation_result.status = "valid" then "success" else "failed",
          validation_result⟩,
        some ⟨"success", decision_result⟩,
        some ⟨"skipped", none, some decision_result.reason⟩,
        some (if validation_result.status = "valid" then "success" else "incomplete")⟩,
        file)

/-- A JSON value, as produced by Python's `json.loads`.  Numbers are kept in
decimal form `mantissa / 10 ^ exp10` (Python parses JSON integers to `int`
and decimals to `float`; the claims never compare parsed numbers across
representations). -/
inductive JVal where
  | null
  | bool (b : Bool)
  | num (mantissa : ℤ) (exp10 : ℕ)
  | str (s : String)
  | arr (items : List JVal)
  | obj (members : List (String × JVal))

/-- JSON insignificant whitespace. -/
def jsonWs (c : Char) : Bool :=
  c = ' ' || c = '\t' || c = '\n' || c = '\r'

/-- Drop JSON whitespace. -/
def skipWs (cs : List Char) : List Char :=
  cs.dropWhile jsonWs

/-- A JSON string escape (the ASCII subset; `\u` escapes are outside the
fragment the model responses in the claims use). -/
def escChar (e : Char) : Option Char :=
  if e = 'n' then some '\n'
  else if e = 't' then some '\t'
  else if e = 'r' then some '\r'
  else if e = '"' then some '"'
  else if e = '\\' then some '\\'
  else if e = '/' then some '/'
  else if e = 'b' then some (Char.ofNat 8)
  else if e = 'f' then some (Char.ofNat 12)
  else none

/-- Parse the characters of a JSON string after its opening quote, returning
the decoded characters and the remainder after the closing quote. -/
def parseStringChars : List Char → Option (List Char × List Char)
  | [] => none
  | '"' :: rest => some ([], rest)
  | '\\' :: e :: rest =>
    match escChar e with
    | some c => (parseStringChars rest).map (fun p => (c :: p.1, p.2))
    | none => none
  | c :: rest => (parseStringChars rest).map (fun p => (c :: p.1, p.2))

/-- Parse a maximal run of decimal digits: accumulated value, digit count,
remainder. -/
def parseDigits : List Char → ℕ → ℕ → ℕ × ℕ × List Char
  | [], acc, n => (acc, n, [])
  | c :: rest, acc, n =>
    if c.isDigit then parseDigits rest (acc * 10 + (c.toNat - 48)) (n + 1)
    else (acc, n, c :: rest)

/-- Parse a JSON number (optional sign, integer part, optional fraction;
exponents are outside the fragment used here). -/
def parseNumber (cs : List Char) : Option (JVal × List Char) :=
  let signSplit : Bool × List Char :=
    match cs with
    | '-' :: rest => (true, rest)
    | _ => (false, cs)
  let ipart := parseDigits signSplit.2 0 0
  if ipart.2.1 = 0 then none
  else
    match ipart.2.2 with
    | '.' :: cs3 =>
      let fpart := parseDigits cs3 0 0
      if fpart.2.1 = 0 then none
      else
        let m : ℤ := ((ipart.1 * 10 ^ fpart.2.1 + fpart.1 : ℕ) : ℤ)
        some (JVal.num (if signSplit.1 then -m else m) fpart.2.1, fpart.2.2)
    | rest =>
      some (JVal.num (if signSplit.1 then -((ipart.1 : ℕ) : ℤ) else ((ipart.1 : ℕ) : ℤ)) 0, rest)

/-- Parse the members of a JSON object after its opening brace (given the
value parser `pv` for the nested values), up to and including the closing
brace. -/
def parseMembersAux (pv : List Char → Option (JVal × List Char)) :
    ℕ → List Char → Option (List (String × JVal) × List Char)
  | 0, _ => none
  | f + 1, cs =>
    match skipWs cs with
    | '"' :: rest =>
      match parseStringChars rest with
      | some (key, rest2) =>
        match skipWs rest2 with
        | ':' :: rest3 =>
          match pv rest3 with
          | some (v, rest4) =>
            match skipWs rest4 with
            | ',' :: rest5 =>
              (parseMembersAux pv f rest5).map
                (fun p => ((String.mk key, v) :: p.1, p.2))
            | '\x7d' :: rest5 => some ([(String.mk key, v)], rest5)
            | _ => none
          | none => none
        | _ => none
      | none => none
    | _ => none

/-- Parse the items of a JSON array after its opening bracket (given the
value parser `pv`), up to and including the closing bracket. -/
def parseItemsAux (pv : List Char → Option (JVal × List Char)) :
    ℕ → List Char → Option (List JVal × List Char)
  | 0, _ => none
  | f + 1, cs =>
    match pv cs with
    | some (v, rest) =>
      match skipWs rest with
      | ',' :: rest2 => (parseItemsAux pv f rest2).map (fun p => (v :: p.1, p.2))
      | ']' :: rest2 => some ([v], rest2)
      | _ => none
    | none => none

/-- Parse one JSON value (fuelled; the fuel bounds nesting depth and list
length and is instantiated beyond the input length at the top level). -/
def parseVal : ℕ → List Char → Option (JVal × List Char)
  | 0, _ => none
  | f + 1, cs =>
    match skipWs cs with
    | 'n' :: 'u' :: 'l' :: 'l' :: rest => some (JVal.null, rest)
    | 't' :: 'r' :: 'u' :: 'e' :: rest => some (JVal.bool true, rest)
    | 'f' :: 'a' :: 'l' :: 's' :: 'e' :: rest => some (JVal.bool false, rest)
    | '"' :: rest =>
      (parseStringChars rest).map (fun p => (JVal.str (String.mk p.1), p.2))
    | '\x7b' :: rest =>
      match skipWs rest with
      | '\x7d' :: rest2 => some (JVal.obj [], rest2)
      | _ => (parseMembersAux (parseVal f) f rest).map (fun p => (JVal.obj p.1, p.2))
    | '[' :: rest =>
      match skipWs rest with
      | ']' :: rest2 => some (JVal.arr [], rest2)
      | _ => (parseItemsAux (parseVal f) f rest).map (fun p => (JVal.arr p.1, p.2))
    | other => parseNumber other

/-- Python `json.loads`: parse one value and require only whitespace to
remain (anything else raises `JSONDecodeError`, i.e. `none` here). -/
def jsonLoads (s : String) : Option JVal :=
  match parseVal (s.length + 1) s.toList with
  | some (v, rest) => if skipWs rest = [] then some v else none
  | none => none

/-- The outcome of one chat-completions call: the response content, or the
exception message when the call raises. -/
inductive CallOutcome where
  | ok (content : String)
  | err (message : String)

/-- The two external calls `ExtractionAgent.extract` can make: the primary
model call and the cheaper-model retry it attempts on a credit error. -/
structure ModelEnv where
  primary : CallOutcome
  fallback : CallOutcome

/-- Substring containment over character lists (Python's `in` on `str`). -/
def containsSub (ps : List Char) : List Char → Bool
  | [] => ps.isPrefixOf []
  | c :: cs => ps.isPrefixOf (c :: cs) || containsSub ps cs

/-- ASCII lower-casing of one character (Python `str.lower()`, ASCII
subset). -/
def lowerChar (c : Char) : Char :=
  if 'A' ≤ c ∧ c ≤ 'Z' then Char.ofNat (c.toNat + 32) else c

/-- Python `str.lower()` (ASCII subset). -/
def strLower (s : String) : String :=
  String.mk (s.toList.map lowerChar)

/-- The credit-error test in `extract`'s exception handler:
`"402" in str(e) or "credits" in str(e).lower()`. -/
def is402 (msg : String) : Bool :=
  containsSub "402".toList msg.toList ||
    containsSub "credits".toList (strLower msg).toList

/-- The all-fields-`null` mapping with an `error` marker that `extract`
returns when it cannot produce parsed model output. -/
def errMapping (msg : String) : JVal :=
  JVal.obj [("biller_name", JVal.null), ("biller_address", JVal.null),
    ("total_amount", JVal.null), ("due_date", JVal.null),
    ("error", JVal.str msg)]

/-- Python `str.find`: index of the first occurrence, `none` for `-1`. -/
def firstIdxAux (c : Char) : List Char → ℕ → Option ℕ
  | [], _ => none
  | x :: xs, i => if x = c then some i else firstIdxAux c xs (i + 1)

/-- Python `text.find(c)`. -/
def pyFind (s : String) (c : Char) : Option ℕ :=
  firstIdxAux c s.toList 0

/-- Python `text.rfind(c)`: index of the last occurrence. -/
def pyRfind (s : String) (c : Char) : Option ℕ :=
  (firstIdxAux c s.toList.reverse 0).map (fun i => s.length - 1 - i)

/-- Python `text[a:b]`. -/
def pySlice (s : String) (a b : ℕ) : String :=
  String.mk ((s.toList.drop a).take (b - a))

/-- `ExtractionAgent._parse_json_from_text`: slice from the FIRST `'\x7b'` to
one past the LAST `'\x7d'` and try `json.loads` on the slice; any failure
produces the all-null mapping with the `"Failed to parse JSON"` marker. -/
def parse_json_from_text (text : String) : JVal :=
  match pyFind text '\x7b', (pyRfind text '\x7d').map (fun i => i + 1) with
  | some s, some e =>
    if s < e then
      match jsonLoads (pySlice text s e) with
      | some v => v
      | none => errMapping "Failed to parse JSON"
    else errMapping "Failed to parse JSON"
  | _, _ => errMapping "Failed to parse JSON"

/-- `ExtractionAgent.extract` as a function of the external call outcomes:
parse the primary response as JSON, falling back to `_parse_json_from_text`
on a parse failure; on a call exception, retry on the cheaper model when the
message signals a credit error (`is402`), otherwise return the all-null
mapping carrying the exception text.  Every branch returns a value — the
embedding is total, matching "never propagate the underlying failure". -/
def extract (env : ModelEnv) : JVal :=
  match env.primary with
  | CallOutcome.ok content =>
    match jsonLoads content with
    | some v => v
    | none => parse_json_from_text content
  | CallOutcome.err e =>
    if is402 e then
      match env.fallback with
      | CallOutcome.ok content2 =>
        match jsonLoads content2 with
        | some v => v
        | none => errMapping "Fallback failed: JSONDecodeError"
      | CallOutcome.err e2 => errMapping ("Fallback failed: " ++ e2)
    else errMapping e

/-- Take characters up to and including the brace that closes the opening
brace the scan is currently inside (`depth` open braces so far). -/
def balancedPrefixAux : ℕ → List Char → Option (List Char)
  | _, [] => none
  | depth, c :: cs =>
    if c = '\x7b' then (balancedPrefixAux (depth + 1) cs).map (fun t => c :: t)
    else if c = '\x7d' then
      if depth = 1 then some [c]
      else (balancedPrefixAux (depth - 1) cs).map (fun t => c :: t)
    else (balancedPrefixAux depth cs).map (fun t => c :: t)

/-- Modelled from the spec's words ("a best-effort parse of the first
balanced-brace substring"): the substring starting at the first opening
brace and ending at its matching closing brace.  This is the refinement
target to compare against the source's `_parse_json_from_text`, which slices
to the LAST closing brace instead. -/
def firstBalancedBraceSubstring (text : String) : Option String :=
  (balancedPrefixAux 0 (text.toList.dropWhile (fun c => !(c == '\x7b')))).map
    String.mk

/-- Key lookup among the members of a JSON object. -/
def jLookup : List (String × JVal) → String → Option JVal
  | [], _ => none
  | (k, v) :: rest, key => if k = key then some v else jLookup rest key

/-- Field lookup on a parsed JSON object. -/
def jGet : JVal → String → Option JVal
  | JVal.obj ms, key => jLookup ms key
  | _, _ => none

/-- A concrete Python-float-parsing oracle used by closed instances: parses
nothing. -/
def noNum : String → Option ℚ := fun _ => none

/-- A concrete `dateutil` oracle used by closed instances: accepts
nothing. -/
def noDate : String → Bool := fun _ => false

/-- The `errors` list built by `validate` before the status is decided. -/
def validationErrors (pN : String → Option ℚ) (pD : String → Bool)
    (m : PyDict) : List String :=
  (if getNonNull m "biller_name" = none
    then ["Missing required field: biller_name"] else [])
  ++ (if getNonNull m "total_amount" = none
    then ["Missing required field: total_amount"] else [])
  ++ (match getNonNull m "total_amount" with
    | some v =>
      match tryFloat pN v with
      | some amount =>
        if amount ≤ 0 then ["total_amount must be a positive number"] else []
      | none => ["total_amount must be a valid number"]
    | none => [])
  ++ (match getNonNull m "due_date" with
    | some v =>
      if is_valid_date pD v then [] else ["due_date must be a valid date format"]
    | none => [])

theorem validate_eq (pN : String → Option ℚ) (pD : String → Bool) (m : PyDict) :
    validate pN pD m =
      if validationErrors pN pD m = [] then ⟨"valid", []⟩
      else ⟨"incomplete", validationErrors pN pD m⟩ := rfl

theorem validate_errors_eq (pN : String → Option ℚ) (pD : String → Bool)
    (m : PyDict) :
    (validate pN pD m).errors = validationErrors pN pD m := by
  rw [validate_eq]
  split
  case isTrue h => exact h.symm
  case isFalse h => rfl

theorem validate_status_valid_iff (pN : String → Option ℚ) (pD : String → Bool)
    (m : PyDict) :
    (validate pN pD m).status = "valid" ↔ validationErrors pN pD m = [] := by
  rw [validate_eq]
  split
  case isTrue h => exact iff_of_true rfl h
  case isFalse h =>
    refine iff_of_false (fun hc => ?_) h
    have hs : ("incomplete" : String) = "valid" := hc
    exact absurd hs (by decide)

theorem validate_status_cases (pN : String → Option ℚ) (pD : String → Bool)
    (m : PyDict) :
    (validate pN pD m).status = "valid" ∨ (validate pN pD m).status = "incomplete" := by
  rw [validate_eq]
  split
  · exact Or.inl rfl
  · exact Or.inr rfl

theorem validationErrors_nil_iff (pN : String → Option ℚ) (pD : String → Bool)
    (m : PyDict) :
    validationErrors pN pD m = [] ↔
      (getNonNull m "biller_name" ≠ none ∧
        (∃ v q, getNonNull m "total_amount" = some v ∧ tryFloat pN v = some q ∧ 0 < q) ∧
        (∀ v, getNonNull m "due_date" = some v → is_valid_date pD v = true)) := by
  unfold validationErrors
  rcases hb : getNonNull m "biller_name" with _ | vb
  · simp [hb]
  · rcases ht : getNonNull m "total_amount" with _ | vt
    · simp [hb, ht]
    · rcases hf : tryFloat pN vt with _ | q
      · simp [hb, ht, hf]
      · rcases hd : getNonNull m "due_date" with _ | vd
        · by_cases hq : q ≤ 0 <;>
            simp [hb, ht, hf, hd, hq, not_le, le_of_lt] <;> exact lt_of_not_le hq
        · by_cases hv : is_valid_date pD vd <;>
            by_cases hq : q ≤ 0 <;>
            simp [hb, ht, hf, hd, hq, hv, not_le, le_of_lt] <;> exact lt_of_not_le hq

/-- C3: `validate` returns status `"valid"` with an empty error list exactly
when `biller_name` is present and non-null, `total_amount` is present,
non-null, float-coercible and strictly positive, and `due_date` is absent,
null, or accepted by the date parser; otherwise it returns `"incomplete"`,
and the error list is the ordered concatenation of one message per violated
rule (all violations reported, in the fixed source order given by
`validationErrors`). -/
theorem C3_validate_characterization (pN : String → Option ℚ)
    (pD : String → Bool) (m : PyDict) :
    ((validate pN pD m).status = "valid" ↔
      (getNonNull m "biller_name" ≠ none ∧
        (∃ v q, getNonNull m "total_amount" = some v ∧ tryFloat pN v = some q ∧ 0 < q) ∧
        (∀ v, getNonNull m "due_date" = some v → is_valid_date pD v = true)))
    ∧ ((validate pN pD m).status = "valid" ∨ (validate pN pD m).status = "incomplete")
    ∧ ((validate pN pD m).errors = [] ↔ (validate pN pD m).status = "valid")
    ∧ (validate pN pD m).errors = validationErrors pN pD m :=
  ⟨(validate_status_valid_iff pN pD m).trans (validationErrors_nil_iff pN pD m),
    validate_status_cases pN pD m,
    by rw [validate_errors_eq]; exact (validate_status_valid_iff pN pD m).symm,
    validate_errors_eq pN pD m⟩

/-- Closed instance of C3: a mapping with a non-null biller and a positive
numeric total (and no due date) validates as `"valid"`. -/
theorem C3_validate_characterization_witness :
    (validate noNum noDate
      [("biller_name", PyVal.str "Acme"), ("total_amount", PyVal.num 150)]).status
      = "valid" :=
  (C3_validate_characterization noNum noDate
    [("biller_name", PyVal.str "Acme"), ("total_amount", PyVal.num 150)]).1.mpr
    ⟨by decide, ⟨PyVal.num 150, 150, rfl, rfl, by norm_num⟩,
      fun v h => Option.noConfusion h⟩

/-- C4: `decide` writes exactly when the verdict's status is `"valid"`; on
`"valid"` the fields pass through verbatim, otherwise `data_to_write` is
null and the reason carries the verdict's error messages joined with
`", "` after the `"Validation failed: "` prefix. -/
theorem C4_decide_routes (verdict : Verdict) (fields : PyDict) :
    ((decide verdict fields).should_write = true ↔ verdict.status = "valid")
    ∧ (verdict.status = "valid" →
      decide verdict fields = ⟨true, "Invoice validation passed", some fields⟩)
    ∧ (verdict.status ≠ "valid" →
      decide verdict fields =
        ⟨false, "Validation failed: " ++ String.intercalate ", " verdict.errors,
          none⟩) := by
  by_cases h : verdict.status = "valid" <;> simp [Invoice.decide, h]

/-- Closed instance of C4: a valid verdict routes to a verbatim write, an
incomplete verdict routes to a skip with the joined error messages. -/
theorem C4_decide_routes_witness :
    decide ⟨"valid", []⟩ [("biller_name", PyVal.str "A")]
      = ⟨true, "Invoice validation passed", some [("biller_name", PyVal.str "A")]⟩
    ∧ decide ⟨"incomplete", ["e1", "e2"]⟩ []
      = ⟨false, "Validation failed: " ++ String.intercalate ", " ["e1", "e2"], none⟩ :=
  ⟨(C4_decide_routes ⟨"valid", []⟩ [("biller_name", PyVal.str "A")]).2.1 rfl,
    (C4_decide_routes ⟨"incomplete", ["e1", "e2"]⟩ []).2.2 (by decide)⟩

/-- C10: `validate` is total over the embedded value universe — it always
returns a `"valid"` or `"incomplete"` verdict; a present, non-null,
non-coercible `total_amount` yields the `"must be a valid number"` error,
while the boolean `True` coerces to `1.0` and passes the strict-positivity
rule (neither amount error is reported). -/
theorem C10_validate_totality (pN : String → Option ℚ) (pD : String → Bool)
    (m : PyDict) :
    ((validate pN pD m).status = "valid" ∨ (validate pN pD m).status = "incomplete")
    ∧ (∀ v, getNonNull m "total_amount" = some v → tryFloat pN v = none →
      "total_amount must be a valid number" ∈ (validate pN pD m).errors)
    ∧ tryFloat pN (PyVal.bool true) = some 1
    ∧ (getNonNull m "total_amount" = some (PyVal.bool true) →
      "total_amount must be a valid number" ∉ (validate pN pD m).errors
      ∧ "total_amount must be a positive number" ∉ (validate pN pD m).errors) := by
  refine ⟨validate_status_cases pN pD m, ?_, rfl, ?_⟩
  · intro v hv hf
    rw [validate_errors_eq]
    unfold validationErrors
    simp [hv, hf]
  · intro ht
    rw [validate_errors_eq]
    unfold validationErrors
    rcases hd : getNonNull m "due_date" with _ | vd <;>
      rcases hb : getNonNull m "biller_name" with _ | vb <;>
      simp [ht, hd, hb, tryFloat]

/-- Closed instance of C10: a non-coercible `total_amount` (an arbitrary
object) is reported as not a valid number, while `total_amount = True`
passes both amount rules. -/
theorem C10_validate_totality_witness :
    "total_amount must be a valid number"
      ∈ (validate noNum noDate [("total_amount", PyVal.obj)]).errors
    ∧ "total_amount must be a valid number"
      ∉ (validate noNum noDate [("total_amount", PyVal.bool true)]).errors :=
  ⟨(C10_validate_totality noNum noDate [("total_amount", PyVal.obj)]).2.1
      PyVal.obj rfl rfl,
    ((C10_validate_totality noNum noDate [("total_amount", PyVal.bool true)]).2.2.2
      rfl).1⟩

/-- C1 counterexample: on a document with non-empty ingested text,
`process_invoice` does NOT stop after extraction — the single call's result
already contains the validation, tool-decision, and database-write steps, so
it is not a paused intermediate result with only the ingestion and
extraction steps. -/
theorem C1_counterexample :
    ((process_invoice noNum noDate "Invoice text" [("biller_name", PyVal.null)]
      "t" DBFile.missing).1.validation ≠ none)
    ∧ ((process_invoice noNum noDate "Invoice text" [("biller_name", PyVal.null)]
      "t" DBFile.missing).1.tool_decision ≠ none)
    ∧ ((process_invoice noNum noDate "Invoice text" [("biller_name", PyVal.null)]
      "t" DBFile.missing).1.database_write ≠ none) := by decide

/-- C1 (amended): `process_invoice` never pauses — for every document whose
ingested text is non-empty it runs validation, the write decision, and the
persistence stage in the same call and returns a run containing all five
steps with a terminal overall status (`"success"` or `"incomplete"`); the
human-review pause exists only in the UI layer, outside this entry point. -/
theorem C1_no_pause (pN : String → Option ℚ) (pD : String → Bool)
    (raw_text : String) (extracted : PyDict) (now : String) (file : DBFile)
    (h : pyStrip raw_text ≠ "") :
    (process_invoice pN pD raw_text extracted now file).1.document_ingestion ≠ none
    ∧ (process_invoice pN pD raw_text extracted now file).1.extraction ≠ none
    ∧ (process_invoice pN pD raw_text extracted now file).1.validation ≠ none
    ∧ (process_invoice pN pD raw_text extracted now file).1.tool_decision ≠ none
    ∧ (process_invoice pN pD raw_text extracted now file).1.database_write ≠ none
    ∧ ((process_invoice pN pD raw_text extracted now file).1.overall_status
        = some "success"
      ∨ (process_invoice pN pD raw_text extracted now file).1.overall_status
        = some "incomplete") := by
  rw [process_invoice, if_neg h]
  dsimp only
  split <;>
    exact ⟨by simp, by simp, by simp, by simp, by simp,
      by by_cases hv : (validate pN pD extracted).status = "valid" <;> simp [hv]⟩

/-- Closed instance of the amended C1. -/
theorem C1_no_pause_witness :
    (process_invoice noNum noDate "inv" [] "t" DBFile.missing).1.validation ≠ none
    ∧ (process_invoice noNum noDate "inv" [] "t" DBFile.missing).1.database_write ≠ none :=
  ⟨(C1_no_pause noNum noDate "inv" [] "t" DBFile.missing (by decide)).2.2.1,
    (C1_no_pause noNum noDate "inv" [] "t" DBFile.missing (by decide)).2.2.2.2.1⟩

/-- C2 counterexample: on whitespace-only ingested text the run terminates
with the ingestion step in status `"error"` and no further steps — but the
Python `return` happens before `overall_status` is ever assigned, so the
returned run has NO `overall_status` key rather than `overall_status =
"error"`. -/
theorem C2_counterexample :
    (process_invoice noNum noDate " \n " [("biller_name", PyVal.str "A")] "t"
      DBFile.missing).1.document_ingestion
      = some ⟨"error", some "No text extracted from document"⟩
    ∧ (process_invoice noNum noDate " \n " [("biller_name", PyVal.str "A")] "t"
      DBFile.missing).1.extraction = none
    ∧ (process_invoice noNum noDate " \n " [("biller_name", PyVal.str "A")] "t"
      DBFile.missing).1.validation = none
    ∧ (process_invoice noNum noDate " \n " [("biller_name", PyVal.str "A")] "t"
      DBFile.missing).1.overall_status = none
    ∧ (process_invoice noNum noDate " \n " [("biller_name", PyVal.str "A")] "t"
      DBFile.missing).1.overall_status ≠ some "error" := by decide

/-- C2 (amended): on empty or whitespace-only raw text `process_invoice`
terminates immediately: the document-ingestion step has status `"error"`
with the "No text extracted" message, no later step is present, the store is
untouched — and the returned run carries no `overall_status` at all (the
early `return` precedes the assignment; callers observe the key as
absent). -/
theorem C2_empty_text_shortcircuit (pN : String → Option ℚ) (pD : String → Bool)
    (raw_text : String) (extracted : PyDict) (now : String) (file : DBFile)
    (h : pyStrip raw_text = "") :
    process_invoice pN pD raw_text extracted now file =
      (⟨some ⟨"error", some "No text extracted from document"⟩,
        none, none, none, none, none⟩, file) := by
  rw [process_invoice, if_pos h]

/-- Closed instance of the amended C2. -/
theorem C2_empty_text_shortcircuit_witness :
    process_invoice noNum noDate " \t\n" [("total_amount", PyVal.num 5)] "t"
      (DBFile.stored [])
      = (⟨some ⟨"error", some "No text extracted from document"⟩,
        none, none, none, none, none⟩, DBFile.stored []) :=
  C2_empty_text_shortcircuit noNum noDate " \t\n" [("total_amount", PyVal.num 5)]
    "t" (DBFile.stored []) (by decide)

theorem decide_should_write_iff (v : Verdict) (e : PyDict) :
    (decide v e).should_write = true ↔ v.status = "valid" := by
  by_cases h : v.status = "valid" <;> simp [Invoice.decide, h]

theorem decide_valid_eq (v : Verdict) (e : PyDict) (h : v.status = "valid") :
    decide v e = ⟨true, "Invoice validation passed", some e⟩ := by
  rw [Invoice.decide, if_pos h]

theorem decide_invalid_eq (v : Verdict) (e : PyDict) (h : ¬v.status = "valid") :
    decide v e =
      ⟨false, "Validation failed: " ++ String.intercalate ", " v.errors, none⟩ := by
  rw [Invoice.decide, if_neg h]

theorem process_overall (pN : String → Option ℚ) (pD : String → Bool)
    (raw_text : String) (extracted : PyDict) (now : String) (file : DBFile)
    (h : pyStrip raw_text ≠ "") :
    (process_invoice pN pD raw_text extracted now file).1.overall_status
      = some (if (validate pN pD extracted).status = "valid"
        then "success" else "incomplete") := by
  rw [process_invoice, if_neg h]
  dsimp only
  split <;> rfl

/-- C5: for a run with non-empty ingested text (and no uncaught fault, which
the embedding has none of), `overall_status` is `"success"` iff validation
returned `"valid"`, and `"incomplete"` otherwise; it does not depend on the
database file state (a persistence failure is recorded in the
`database_write` step's status, never in `overall_status`); when the
decision is not to write, the `database_write` step is present with status
`"skipped"`. -/
theorem C5_overall_status (pN : String → Option ℚ) (pD : String → Bool)
    (raw_text : String) (extracted : PyDict) (now : String) (file : DBFile)
    (h : pyStrip raw_text ≠ "") :
    ((process_invoice pN pD raw_text extracted now file).1.overall_status
        = some "success"
      ↔ (validate pN pD extracted).status = "valid")
    ∧ ((validate pN pD extracted).status ≠ "valid" →
      (process_invoice pN pD raw_text extracted now file).1.overall_status
        = some "incomplete")
    ∧ (∀ file₂ : DBFile,
      (process_invoice pN pD raw_text extracted now file₂).1.overall_status
        = (process_invoice pN pD raw_text extracted now file).1.overall_status)
    ∧ ((decide (validate pN pD extracted) extracted).should_write = false →
      (process_invoice pN pD raw_text extracted now file).1.database_write
        = some ⟨"skipped", none,
            some (decide (validate pN pD extracted) extracted).reason⟩)
    ∧ ((decide (validate pN pD extracted) extracted).should_write = true →
      (process_invoice pN pD raw_text extracted now file).1.database_write
        = some ⟨if (write_invoice_to_db extracted now file).1.success
              then "success" else "error",
            some (write_invoice_to_db extracted now file).1, none⟩) := by
  refine ⟨?_, ?_, ?_, ?_, ?_⟩
  · rw [process_overall pN pD raw_text extracted now file h]
    by_cases hv : (validate pN pD extracted).status = "valid" <;> simp [hv]
  · intro hv
    rw [process_overall pN pD raw_text extracted now file h]
    simp [hv]
  · intro file₂
    rw [process_overall pN pD raw_text extracted now file h,
      process_overall pN pD raw_text extracted now file₂ h]
  · intro hw
    rw [process_invoice, if_neg h]
    dsimp only
    simp [hw]
  · intro hw
    have hv := (decide_should_write_iff (validate pN pD extracted) extracted).mp hw
    have hd := decide_valid_eq (validate pN pD extracted) extracted hv
    rw [process_invoice, if_neg h]
    dsimp only
    simp [hd]

/-- Closed instance of C5: an empty field mapping validates as incomplete,
so the run ends `"incomplete"` with the `database_write` step skipped. -/
theorem C5_overall_status_witness :
    ((process_invoice noNum noDate "inv" [] "t" DBFile.missing).1.overall_status
        = some "success"
      ↔ (validate noNum noDate []).status = "valid")
    ∧ (process_invoice noNum noDate "inv" [] "t" DBFile.missing).1.overall_status
        = some "incomplete"
    ∧ (process_invoice noNum noDate "inv" [] "t" DBFile.missing).1.database_write
        = some ⟨"skipped", none,
            some (decide (validate noNum noDate []) []).reason⟩ :=
  ⟨(C5_overall_status noNum noDate "inv" [] "t" DBFile.missing (by decide)).1,
    (C5_overall_status noNum noDate "inv" [] "t" DBFile.missing (by decide)).2.1
      (by decide),
    (C5_overall_status noNum noDate "inv" [] "t" DBFile.missing (by decide)).2.2.2.1
      (by decide)⟩

theorem write_invoice_eq (d : PyDict) (now : String) (file : DBFile) :
    write_invoice_to_db d now file =
      if (load_invoices file
          ++ [(⟨d, (load_invoices file).length + 1, now⟩ : InvoiceRecord)]).all recordSerializable
      then (⟨true, "Invoice successfully written to database",
          some ((load_invoices file).length + 1)⟩,
        DBFile.stored (load_invoices file
          ++ [⟨d, (load_invoices file).length + 1, now⟩]))
      else (⟨false, "Error writing to database: serialization failure", none⟩,
        DBFile.corrupt) := rfl

theorem write_success_eq (d : PyDict) (now : String) (file : DBFile)
    (h : (write_invoice_to_db d now file).1.success = true) :
    write_invoice_to_db d now file =
      (⟨true, "Invoice successfully written to database",
          some ((load_invoices file).length + 1)⟩,
        DBFile.stored (load_invoices file
          ++ [⟨d, (load_invoices file).length + 1, now⟩])) := by
  rw [write_invoice_eq] at h ⊢
  rcases hser : (load_invoices file
      ++ [(⟨d, (load_invoices file).length + 1, now⟩ : InvoiceRecord)]).all recordSerializable
  · rw [hser] at h
    simp at h
  · rw [if_pos rfl]

theorem write_failure_eq (d : PyDict) (now : String) (file : DBFile)
    (h : (write_invoice_to_db d now file).1.success = false) :
    write_invoice_to_db d now file =
      (⟨false, "Error writing to database: serialization failure", none⟩,
        DBFile.corrupt) := by
  rw [write_invoice_eq] at h ⊢
  rcases hser : (load_invoices file
      ++ [(⟨d, (load_invoices file).length + 1, now⟩ : InvoiceRecord)]).all recordSerializable
  · simp
  · rw [hser] at h
    simp at h

theorem load_invoices_stored (l : List InvoiceRecord) :
    load_invoices (DBFile.stored l) = l := rfl

theorem runWrites_all_success_ids :
    ∀ (payloads : List (PyDict × String)) (file : DBFile),
      (∀ r ∈ (runWrites payloads file).1, r.success = true) →
      (runWrites payloads file).1.map (fun r => r.invoice_id)
        = (List.range' ((load_invoices file).length + 1) payloads.length).map some := by
  intro payloads
  induction payloads with
  | nil => intro file _; simp [runWrites]
  | cons p rest ih =>
    rcases p with ⟨d, now⟩
    intro file hall
    have hhead : (write_invoice_to_db d now file).1.success = true := by
      apply hall
      simp [runWrites]
    have hw := write_success_eq d now file hhead
    have htail : ∀ r ∈ (runWrites rest (write_invoice_to_db d now file).2).1,
        r.success = true := by
      intro r hr
      apply hall
      simp only [runWrites]
      exact List.mem_cons_of_mem _ hr
    have hrec := ih (write_invoice_to_db d now file).2 htail
    rw [hw] at hrec
    dsimp only at hrec
    rw [load_invoices_stored] at hrec
    simp only [runWrites]
    rw [hw]
    dsimp only
    rw [List.map_cons, hrec]
    simp [List.range', List.length_append]

/-- C6 counterexample: good write, failed write (unserializable field),
good write against the same store.  The successful writes get identifiers
1 and then 1 again — not strictly increasing — and the failed write does
not leave the prior record intact: the final store holds only the third
write's record. -/
theorem C6_counterexample :
    (runWrites [([("biller_name", PyVal.str "Acme")], "t1"),
        ([("attachment", PyVal.obj)], "t2"),
        ([("biller_name", PyVal.str "Acme")], "t3")]
      (DBFile.stored [])).1.map (fun r => (r.success, r.invoice_id))
      = [(true, some 1), (false, none), (true, some 1)]
    ∧ (runWrites [([("biller_name", PyVal.str "Acme")], "t1"),
        ([("attachment", PyVal.obj)], "t2"),
        ([("biller_name", PyVal.str "Acme")], "t3")]
      (DBFile.stored [])).2
      = DBFile.stored [⟨[("biller_name", PyVal.str "Acme")], 1, "t3"⟩] := by decide

/-- C6 (amended): a successful write assigns the identifier
`count-of-loaded-records + 1`; a failed write returns a null identifier; and
across a sequence of writes that ALL succeed the identifiers are the
consecutive ascending range starting one past the initial record count —
hence strictly increasing.  (Without the all-success proviso the property
fails: a write that fails during serialization corrupts the store, after
which the next load sees an empty list and the sequence restarts at 1.) -/
theorem C6_identifier_assignment (d : PyDict) (now : String) (file : DBFile)
    (payloads : List (PyDict × String)) :
    ((write_invoice_to_db d now file).1.success = true →
      (write_invoice_to_db d now file).1.invoice_id
        = some ((load_invoices file).length + 1))
    ∧ ((write_invoice_to_db d now file).1.success = false →
      (write_invoice_to_db d now file).1.invoice_id = none)
    ∧ ((∀ r ∈ (runWrites payloads file).1, r.success = true) →
      (runWrites payloads file).1.map (fun r => r.invoice_id)
        = (List.range' ((load_invoices file).length + 1) payloads.length).map some) :=
  ⟨fun h => by rw [write_success_eq d now file h],
    fun h => by rw [write_failure_eq d now file h],
    runWrites_all_success_ids payloads file⟩

/-- Closed instance of the amended C6: two successful writes against an
absent store file get identifiers 1 and 2. -/
theorem C6_identifier_assignment_witness :
    (runWrites [([("biller_name", PyVal.str "Acme")], "t1"),
        ([("biller_name", PyVal.str "Acme")], "t2")]
      DBFile.missing).1.map (fun r => r.invoice_id)
      = [some 1, some 2] := by
  have h := (C6_identifier_assignment [] "t" DBFile.missing
    [([("biller_name", PyVal.str "Acme")], "t1"),
      ([("biller_name", PyVal.str "Acme")], "t2")]).2.2 (by decide)
  simpa [List.range'] using h

/-- C7 counterexample: against a store holding one committed record, a write
whose payload contains an unserializable value returns `success = false`
with a null identifier (as claimed) — but the store is NOT left in its last
committed state: the file was truncated before serialization completed, so
the committed record is lost. -/
theorem C7_counterexample :
    (write_invoice_to_db [("attachment", PyVal.obj)] "t1"
      (DBFile.stored [⟨[("biller_name", PyVal.str "Acme")], 1, "t0"⟩])).1
      = ⟨false, "Error writing to database: serialization failure", none⟩
    ∧ (write_invoice_to_db [("attachment", PyVal.obj)] "t1"
      (DBFile.stored [⟨[("biller_name", PyVal.str "Acme")], 1, "t0"⟩])).2
      = DBFile.corrupt
    ∧ DBFile.corrupt
      ≠ DBFile.stored [⟨[("biller_name", PyVal.str "Acme")], 1, "t0"⟩] := by decide

/-- C7 (amended): a failed `write_invoice_to_db` returns `success = false`
with a diagnostic message and a null `invoice_id`, and a successful write
atomically replaces the store with the old records plus the one new record;
but a failure during the rewrite phase does NOT leave the store in its last
committed state — `_save_invoices` truncates the file on open and streams
`json.dump` into it, so a serialization failure leaves the file
truncated/invalid and the previously committed records are lost. -/
theorem C7_write_failure_truncates (d : PyDict) (now : String) (file : DBFile) :
    ((write_invoice_to_db d now file).1.success = false →
      (write_invoice_to_db d now file).1.invoice_id = none
      ∧ (write_invoice_to_db d now file).1.message
        = "Error writing to database: serialization failure"
      ∧ (write_invoice_to_db d now file).2 = DBFile.corrupt)
    ∧ ((write_invoice_to_db d now file).1.success = true →
      (write_invoice_to_db d now file).2
        = DBFile.stored (load_invoices file
          ++ [⟨d, (load_invoices file).length + 1, now⟩])) :=
  ⟨fun h => by rw [write_failure_eq d now file h]; exact ⟨rfl, rfl, rfl⟩,
    fun h => by rw [write_success_eq d now file h]⟩

/-- Closed instance of the amended C7: a failed write against a one-record
store returns a null identifier and leaves the file corrupt. -/
theorem C7_write_failure_truncates_witness :
    (write_invoice_to_db [("x", PyVal.obj)] "t2"
      (DBFile.stored [⟨[], 1, "t0"⟩])).1.invoice_id = none
    ∧ (write_invoice_to_db [("x", PyVal.obj)] "t2"
      (DBFile.stored [⟨[], 1, "t0"⟩])).2 = DBFile.corrupt :=
  ⟨((C7_write_failure_truncates [("x", PyVal.obj)] "t2"
      (DBFile.stored [⟨[], 1, "t0"⟩])).1 (by decide)).1,
    ((C7_write_failure_truncates [("x", PyVal.obj)] "t2"
      (DBFile.stored [⟨[], 1, "t0"⟩])).1 (by decide)).2.2⟩

/-- C9: when the database file exists but holds invalid JSON,
`_load_invoices` silently maps the decode error to an empty record list, so
the next (serializable) write succeeds, is assigned identifier 1, and
rewrites the store to a singleton list holding only the new record — all
previous content is discarded and the identifier sequence restarts. -/
theorem C9_invalid_json_resets (d : PyDict) (now : String)
    (h : dictSerializable d = true) :
    write_invoice_to_db d now DBFile.corrupt
      = (⟨true, "Invoice successfully written to database", some 1⟩,
        DBFile.stored [⟨d, 1, now⟩]) := by
  rw [write_invoice_eq]
  rw [if_pos]
  · rfl
  · simpa [load_invoices, recordSerializable] using h

/-- Closed instance of C9. -/
theorem C9_invalid_json_resets_witness :
    write_invoice_to_db [("biller_name", PyVal.str "Acme")] "t9" DBFile.corrupt
      = (⟨true, "Invoice successfully written to database", some 1⟩,
        DBFile.stored [⟨[("biller_name", PyVal.str "Acme")], 1, "t9"⟩]) :=
  C9_invalid_json_resets [("biller_name", PyVal.str "Acme")] "t9" (by decide)

/-- C8 counterexample: when the model's response is `'{"a": 1} {"b": 2}'`
(ill-formed as a whole), the claim's "best-effort parse of the first
balanced-brace substring" exists and is `{"a": 1}` — but `extract` slices
from the first opening brace to the LAST closing brace, whose parse fails,
and so returns the all-null error mapping instead of that parse. -/
theorem C8_counterexample :
    extract ⟨CallOutcome.ok "\x7b\"a\": 1\x7d \x7b\"b\": 2\x7d", CallOutcome.ok ""⟩
      = errMapping "Failed to parse JSON"
    ∧ firstBalancedBraceSubstring "\x7b\"a\": 1\x7d \x7b\"b\": 2\x7d"
      = some "\x7b\"a\": 1\x7d"
    ∧ jsonLoads "\x7b\"a\": 1\x7d" = some (JVal.obj [("a", JVal.num 1 0)])
    ∧ extract ⟨CallOutcome.ok "\x7b\"a\": 1\x7d \x7b\"b\": 2\x7d", CallOutcome.ok ""⟩
      ≠ JVal.obj [("a", JVal.num 1 0)] :=
  ⟨rfl, rfl, rfl, fun hcontra =>
    absurd (congrArg
        (fun j => match j with | JVal.obj ms => ms.length | _ => 0) hcontra)
      (by decide)⟩

/-- C8 (amended): `extract` is total (never propagates the underlying
failure) and returns, case by case: the model's parsed JSON verbatim and
without shape validation when the response parses; the result of
`_parse_json_from_text` — the parse of the slice from the first `'{'` to the
last `'}'`, or the all-null error mapping — when the response is ill-formed;
the all-null mapping carrying the exception text when the call fails with a
non-credit error; and, on a credit error, the cheaper-model retry's parsed
output or a `"Fallback failed"` all-null mapping.  The all-null mapping has
the four declared fields null plus an `error` string. -/
theorem C8_extract_cases (env : ModelEnv) :
    (∀ msg, jGet (errMapping msg) "biller_name" = some JVal.null
      ∧ jGet (errMapping msg) "biller_address" = some JVal.null
      ∧ jGet (errMapping msg) "total_amount" = some JVal.null
      ∧ jGet (errMapping msg) "due_date" = some JVal.null
      ∧ jGet (errMapping msg) "error" = some (JVal.str msg))
    ∧ (∀ e, env.primary = CallOutcome.err e → is402 e = false →
      extract env = errMapping e)
    ∧ (∀ e e2, env.primary = CallOutcome.err e → is402 e = true →
      env.fallback = CallOutcome.err e2 →
      extract env = errMapping ("Fallback failed: " ++ e2))
    ∧ (∀ e s2 v, env.primary = CallOutcome.err e → is402 e = true →
      env.fallback = CallOutcome.ok s2 → jsonLoads s2 = some v →
      extract env = v)
    ∧ (∀ s v, env.primary = CallOutcome.ok s → jsonLoads s = some v →
      extract env = v)
    ∧ (∀ s, env.primary = CallOutcome.ok s → jsonLoads s = none →
      extract env = parse_json_from_text s) := by
  obtain ⟨p, fb⟩ := env
  refine ⟨fun msg => ⟨rfl, rfl, rfl, rfl, rfl⟩, ?_, ?_, ?_, ?_, ?_⟩
  · intro e hp h4
    cases hp
    simp [extract, h4]
  · intro e e2 hp h4 hf
    cases hp
    cases hf
    simp [extract, h4]
  · intro e s2 v hp h4 hf hload
    cases hp
    cases hf
    simp [extract, h4, hload]
  · intro s v hp hload
    cases hp
    simp [extract, hload]
  · intro s hp hload
    cases hp
    simp [extract, hload]

/-- Closed instance of C8: a non-credit call failure yields the all-null
mapping carrying the exception text in its `error` field. -/
theorem C8_extract_cases_witness :
    extract ⟨CallOutcome.err "boom", CallOutcome.ok "x"⟩ = errMapping "boom"
    ∧ jGet (errMapping "boom") "error" = some (JVal.str "boom") :=
  ⟨(C8_extract_cases ⟨CallOutcome.err "boom", CallOutcome.ok "x"⟩).2.1 "boom"
      rfl rfl,
    ((C8_extract_cases ⟨CallOutcome.err "boom", CallOutcome.ok "x"⟩).1
      "boom").2.2.2.2⟩

end Invoice
